import Mathlib

/-!
Verification of the plan-limit / quota / subscription subsystem of the
Study_AI backend. Definitions are shallow embeddings of the Python source
(`backend/api/models.py`, `backend/api/plan_limits.py`,
`backend/api/serializers.py`, `backend/api/views.py`,
`backend/api/services.py`). Timestamps are modelled as natural numbers
(seconds); the loosely-typed `plan_type` and `subscription_status` fields
are modelled as the strings the source stores and compares.
-/

namespace StudyAI

/-- Entitlement-relevant fields of the `User` model (`models.py`). -/
structure User where
  plan_type : String
  subscription_status : String
  subscription_start_date : Option Nat
  subscription_end_date : Option Nat
  stripe_customer_id : Option String
  stripe_subscription_id : Option String
deriving DecidableEq, Repr

/-- Embedding of the `User.is_pro` property (`models.py` lines 29-36).
`now` stands for `timezone.now()` at the moment of evaluation. -/
def is_pro (u : User) (now : Nat) : Bool :=
  if u.plan_type == "pro" && u.subscription_status == "active" then
    match u.subscription_end_date with
    | some e => decide (now < e)
    | none => true
  else
    false

/-- The dictionary returned by `User.get_plan_limits` (`models.py` lines
38-55); `-1` is the source's unlimited sentinel. -/
structure PlanLimits where
  documents_per_month : Int
  summaries_per_month : Int
  flashcards_per_month : Int
  max_file_size_mb : Int
  ai_generations_per_month : Int
deriving DecidableEq, Repr

/-- Embedding of `User.get_plan_limits` (`models.py` lines 38-55). -/
def get_plan_limits (u : User) (now : Nat) : PlanLimits :=
  if is_pro u now then
    { documents_per_month := -1
      summaries_per_month := -1
      flashcards_per_month := -1
      max_file_size_mb := 50
      ai_generations_per_month := -1 }
  else
    { documents_per_month := 10
      summaries_per_month := 10
      flashcards_per_month := 50
      max_file_size_mb := 10
      ai_generations_per_month := 20 }

/-- A `Document` row: owner id and upload timestamp (`models.py`). -/
structure Document where
  user : Nat
  uploaded_at : Nat
deriving DecidableEq, Repr

/-- A `Summary` row: owner id and creation timestamp (`models.py`). -/
structure Summary where
  user : Nat
  created_at : Nat
deriving DecidableEq, Repr

/-- A `Flashcard` row: owner id, optional source-document id (nullable
foreign key in `models.py`) and creation timestamp. -/
structure Flashcard where
  user : Nat
  document : Option Nat
  created_at : Nat
deriving DecidableEq, Repr

/-- The database state the quota checks query. -/
structure DB where
  documents : List Document
  summaries : List Summary
  flashcards : List Flashcard
deriving DecidableEq, Repr

/-- The queryset `Document.objects.filter(user=user, uploaded_at__gte=start_of_month).count()`
used by `check_document_limit` (`plan_limits.py` lines 17-21). `som` is the
precomputed start of the current calendar month. -/
def documents_this_month (db : DB) (uid : Nat) (som : Nat) : Nat :=
  (db.documents.filter (fun d => d.user == uid && decide (som ≤ d.uploaded_at))).length

/-- The queryset `Summary.objects.filter(user=user, created_at__gte=start_of_month).count()`
(`plan_limits.py` lines 36-40 and 82-85). -/
def summaries_this_month (db : DB) (uid : Nat) (som : Nat) : Nat :=
  (db.summaries.filter (fun s => s.user == uid && decide (som ≤ s.created_at))).length

/-- The queryset `Flashcard.objects.filter(user=user, created_at__gte=start_of_month).count()`
(`plan_limits.py` lines 55-59). -/
def flashcards_this_month (db : DB) (uid : Nat) (som : Nat) : Nat :=
  (db.flashcards.filter (fun f => f.user == uid && decide (som ≤ f.created_at))).length

/-- The queryset with `document__isnull=False` counting AI-generated
flashcards (`plan_limits.py` lines 88-92). -/
def ai_flashcards_this_month (db : DB) (uid : Nat) (som : Nat) : Nat :=
  (db.flashcards.filter
    (fun f => f.user == uid && decide (som ≤ f.created_at) && f.document.isSome)).length

/-- `total_generations` of `check_ai_generation_limit` (`plan_limits.py`
line 94): summaries plus flashcards with a non-null document this month. -/
def ai_generations_used (db : DB) (uid : Nat) (som : Nat) : Nat :=
  summaries_this_month db uid som + ai_flashcards_this_month db uid som

/-- Embedding of `check_document_limit` (`plan_limits.py` lines 10-26).
The Python pair `(True, None)` for the unlimited case is modelled as
`(true, none)`. -/
def check_document_limit (db : DB) (uid : Nat) (u : User) (now som : Nat) :
    Bool × Option Int :=
  let limits := get_plan_limits u now
  if limits.documents_per_month == -1 then
    (true, none)
  else
    let used : Int := documents_this_month db uid som
    let remaining := limits.documents_per_month - used
    if remaining > 0 then (true, some remaining) else (false, some 0)

/-- Embedding of `check_summary_limit` (`plan_limits.py` lines 29-45). -/
def check_summary_limit (db : DB) (uid : Nat) (u : User) (now som : Nat) :
    Bool × Option Int :=
  let limits := get_plan_limits u now
  if limits.summaries_per_month == -1 then
    (true, none)
  else
    let used : Int := summaries_this_month db uid som
    let remaining := limits.summaries_per_month - used
    if remaining > 0 then (true, some remaining) else (false, some 0)

/-- Embedding of `check_flashcard_limit` (`plan_limits.py` lines 48-64). -/
def check_flashcard_limit (db : DB) (uid : Nat) (u : User) (now som : Nat) :
    Bool × Option Int :=
  let limits := get_plan_limits u now
  if limits.flashcards_per_month == -1 then
    (true, none)
  else
    let used : Int := flashcards_this_month db uid som
    let remaining := limits.flashcards_per_month - used
    if remaining > 0 then (true, some remaining) else (false, some 0)

/-- Embedding of `check_file_size_limit` (`plan_limits.py` lines 67-71). -/
def check_file_size_limit (u : User) (now : Nat) (file_size_bytes : Int) : Bool :=
  let limits := get_plan_limits u now
  let max_size_bytes := limits.max_file_size_mb * 1024 * 1024
  decide (file_size_bytes ≤ max_size_bytes)

/-- Embedding of `check_ai_generation_limit` (`plan_limits.py` lines 74-98). -/
def check_ai_generation_limit (db : DB) (uid : Nat) (u : User) (now som : Nat) :
    Bool × Option Int :=
  let limits := get_plan_limits u now
  if limits.ai_generations_per_month == -1 then
    (true, none)
  else
    let summaries_count := summaries_this_month db uid som
    let ai_flashcards_count := ai_flashcards_this_month db uid som
    let total_generations : Int := summaries_count + ai_flashcards_count
    let remaining := limits.ai_generations_per_month - total_generations
    if remaining > 0 then (true, some remaining) else (false, some 0)

/-- The user table keyed by primary key, as the webhook handler queries it. -/
abbrev UserDB := List (Nat × User)

/-- The Stripe webhook events the handler in `views.py` dispatches on.
For `invoice.payment_failed` the handler first retrieves the subscription
from Stripe; `none` models that retrieval failing (the caught
`stripe.error.StripeError` branch). -/
inductive StripeEvent where
  | checkoutCompleted (user_id : Option Nat) (subscription_id : String)
      (current_period_end : Option Nat)
  | subscriptionDeleted (subscription_id : String)
  | paymentFailed (subscription : Option String)
deriving DecidableEq, Repr

/-- Python truthiness of `subscription.current_period_end`: both `None`
and `0` fail the `if subscription.current_period_end:` test. -/
def truthy_period_end : Option Nat → Bool
  | some t => t != 0
  | none => false

/-- Field writes of the `checkout.session.completed` branch of
`stripe_webhook` (`views.py`): absolute writes of plan, status,
subscription id and start; the end date is written only when the event
carries a (truthy) `current_period_end` — there is no fallback branch. -/
def checkout_effect (now : Nat) (sub_id : String) (pe : Option Nat) (u : User) : User :=
  { u with
    plan_type := "pro"
    subscription_status := "active"
    stripe_subscription_id := some sub_id
    subscription_start_date := some now
    subscription_end_date :=
      if truthy_period_end pe then some (pe.getD 0) else u.subscription_end_date }

/-- Field writes of the `customer.subscription.deleted` branch of
`stripe_webhook` (`views.py`). -/
def subscription_deleted_effect (u : User) : User :=
  { u with
    plan_type := "free"
    subscription_status := "cancelled"
    stripe_subscription_id := none }

/-- Field writes of the `invoice.payment_failed` branch of
`stripe_webhook` (`views.py`): only the status changes. -/
def payment_failed_effect (u : User) : User :=
  { u with subscription_status := "past_due" }

/-- Embedding of the event dispatch of `stripe_webhook` (`views.py`).
`User.objects.get` raising `DoesNotExist` followed by `pass` corresponds
to no row being updated; a matched row receives the branch's writes. -/
def stripe_webhook (now : Nat) (e : StripeEvent) (db : UserDB) : UserDB :=
  match e with
  | .checkoutCompleted user_id sub_id pe =>
    match user_id with
    | none => db
    | some uid =>
      db.map (fun p => if p.1 == uid then (p.1, checkout_effect now sub_id pe p.2) else p)
  | .subscriptionDeleted sid =>
    db.map (fun p =>
      if p.2.stripe_subscription_id == some sid
      then (p.1, subscription_deleted_effect p.2) else p)
  | .paymentFailed sub =>
    match sub with
    | none => db
    | some sid =>
      db.map (fun p =>
        if p.2.stripe_subscription_id == some sid
        then (p.1, payment_failed_effect p.2) else p)

/-- `timedelta(days=30)` in seconds. -/
def thirtyDays : Nat := 30 * 24 * 60 * 60

/-- Field writes of the successful-payment branch of `verify_payment`
(`views.py` lines 559-576): unlike the webhook branch, this path does set
`subscription_end_date := now + 30 days` when `current_period_end` is
absent. -/
def verify_payment_upgrade (now : Nat) (sub_id : String) (pe : Option Nat) (u : User) : User :=
  { u with
    plan_type := "pro"
    subscription_status := "active"
    stripe_subscription_id := some sub_id
    subscription_start_date := some now
    subscription_end_date :=
      some (if truthy_period_end pe then pe.getD 0 else now + thirtyDays) }

/-- One `{limit, used, remaining}` entry of the serializer snapshot. -/
structure ResourceUsage where
  limit : Int
  used : Nat
  remaining : Int
deriving DecidableEq, Repr

/-- The snapshot assembled by `UserSerializer.get_plan_limits`
(`serializers.py` lines 40-77). -/
structure PlanLimitsSnapshot where
  documents : ResourceUsage
  summaries : ResourceUsage
  flashcards : ResourceUsage
  max_file_size_mb : Int
  ai_generations : ResourceUsage
deriving DecidableEq, Repr

/-- Embedding of `UserSerializer.get_plan_limits` (`serializers.py` lines
40-77): `remaining := limit - used` when the limit is finite, the sentinel
`-1` otherwise; no clamping at zero anywhere. -/
def serializer_plan_limits (db : DB) (uid : Nat) (u : User) (now som : Nat) :
    PlanLimitsSnapshot :=
  let limits := get_plan_limits u now
  let documents_count := documents_this_month db uid som
  let summaries_count := summaries_this_month db uid som
  let flashcards_count := flashcards_this_month db uid som
  let ai_used := summaries_count + ai_flashcards_this_month db uid som
  { documents :=
      { limit := limits.documents_per_month
        used := documents_count
        remaining :=
          if limits.documents_per_month != -1
          then limits.documents_per_month - documents_count else -1 }
    summaries :=
      { limit := limits.summaries_per_month
        used := summaries_count
        remaining :=
          if limits.summaries_per_month != -1
          then limits.summaries_per_month - summaries_count else -1 }
    flashcards :=
      { limit := limits.flashcards_per_month
        used := flashcards_count
        remaining :=
          if limits.flashcards_per_month != -1
          then limits.flashcards_per_month - flashcards_count else -1 }
    max_file_size_mb := limits.max_file_size_mb
    ai_generations :=
      { limit := limits.ai_generations_per_month
        used := ai_used
        remaining :=
          if limits.ai_generations_per_month != -1
          then limits.ai_generations_per_month - ai_used else -1 } }

/-- Input for the `num_cards` request parameter of
`DocumentViewSet.generate_flashcards` (`views.py` lines 203-209):
absent (`.get` default), unparseable (`int()` raising), or an integer. -/
inductive NumCardsInput where
  | absent
  | unparseable
  | value (n : Int)
deriving DecidableEq, Repr

/-- Embedding of the `num_cards` normalization in `views.py` lines
203-209: absent or unparseable input yields 10; an out-of-range integer
is replaced by 10; an in-range integer passes through. -/
def parse_num_cards : NumCardsInput → Int
  | .absent => 10
  | .unparseable => 10
  | .value n => if n < 1 || n > 50 then 10 else n

/-- Modelled from the spec's words ("`n` clamped to [1,50] with default
10"): true clamping to the nearest bound, stated for comparison with
`parse_num_cards`, which is what the source does. -/
def clamp_num_cards : NumCardsInput → Int
  | .absent => 10
  | .unparseable => 10
  | .value n => max 1 (min 50 n)

/-- A flashcard as parsed from the AI response, before field defaults:
each field may be missing (`none`) or present (possibly empty). -/
structure RawCard where
  question : Option String
  answer : Option String
  category : Option String
deriving DecidableEq, Repr

/-- A flashcard after the field-default pass. -/
structure Card where
  question : String
  answer : String
  category : String
deriving DecidableEq, Repr

/-- The "ensure all flashcards have required fields" loop of
`OpenAIService.generate_flashcards` (`services.py`): a missing or falsy
(empty) question or answer is replaced by a placeholder; a missing
category is replaced by "General" (an empty category is kept as is —
the source only tests `'category' not in card`). -/
def ensure_card (c : RawCard) : Card :=
  { question :=
      match c.question with
      | some q => if q == "" then "Question not generated" else q
      | none => "Question not generated"
    answer :=
      match c.answer with
      | some a => if a == "" then "Answer not generated" else a
      | none => "Answer not generated"
    category :=
      match c.category with
      | some k => k
      | none => "General" }

/-- The tail of `OpenAIService.generate_flashcards` (`services.py`): apply
the field-default pass to every parsed card and return at most
`num_cards` of them (`flashcards[:num_cards]`). -/
def finalize_flashcards (raw : List RawCard) (num_cards : Nat) : List Card :=
  (raw.map ensure_card).take num_cards

/-! ## Helper lemmas shared by several results -/

/-- Characterization of `is_pro` by its three conditions. -/
theorem is_pro_iff_conditions (u : User) (now : Nat) :
    is_pro u now = true ↔
      (u.plan_type = "pro" ∧ u.subscription_status = "active" ∧
        (u.subscription_end_date = none ∨
          ∃ e, u.subscription_end_date = some e ∧ now < e)) := by
  unfold is_pro
  cases h : u.subscription_end_date with
  | none => simp [h]
  | some e => simp [h]; tauto

/-- `is_pro` is false once the stored end date has passed. -/
theorem is_pro_false_of_expired (u : User) (now e : Nat)
    (he : u.subscription_end_date = some e) (hle : e ≤ now) :
    is_pro u now = false := by
  unfold is_pro
  rw [he]
  split
  · simp [Nat.not_lt.mpr hle]
  · rfl

/-- A map that rewrites only entries matched by `c` is the identity when
nothing matches. -/
theorem map_no_match {α : Type} (l : List α) (c : α → Bool) (f : α → α)
    (h : ∀ a ∈ l, c a = false) :
    l.map (fun a => if c a then f a else a) = l := by
  induction l with
  | nil => rfl
  | cons x t ih =>
    have hx : c x = false := h x (List.mem_cons_self x t)
    have ht := ih (fun a ha => h a (List.mem_cons_of_mem x ha))
    simp [List.map_cons, hx, ht]

/-- Mapping an elementwise-idempotent function twice equals mapping it once. -/
theorem map_idem {α : Type} (l : List α) (f : α → α) (hf : ∀ a, f (f a) = f a) :
    (l.map f).map f = l.map f := by
  induction l with
  | nil => rfl
  | cons x t ih => simp [List.map_cons, hf, ih]

/-- The checkout field writes are idempotent: all writes are absolute, and
the conditional end-date write rewrites the same value the second time. -/
theorem checkout_effect_idem (now : Nat) (sid : String) (pe : Option Nat) (u : User) :
    checkout_effect now sid pe (checkout_effect now sid pe u) =
      checkout_effect now sid pe u := by
  unfold checkout_effect
  cases h : truthy_period_end pe <;> simp [h]

/-! ## Claims -/

/-- C2: `is_pro user now` returns true iff `plan_tier == pro` and
`subscription_status == active` and the end date is null or strictly after
`now`; in particular it is false whenever `now >= subscription_end`,
regardless of status. -/
theorem C2_is_pro_spec :
    (∀ (u : User) (now : Nat),
      is_pro u now = true ↔
        (u.plan_type = "pro" ∧ u.subscription_status = "active" ∧
          (u.subscription_end_date = none ∨
            ∃ e, u.subscription_end_date = some e ∧ now < e))) ∧
    (∀ (u : User) (now e : Nat),
      u.subscription_end_date = some e → e ≤ now → is_pro u now = false) :=
  ⟨is_pro_iff_conditions, is_pro_false_of_expired⟩

/-- C2 witness: a pro/active user whose subscription ended at time 5 is not
pro at time 7. -/
theorem C2_is_pro_spec_witness :
    is_pro
      { plan_type := "pro", subscription_status := "active",
        subscription_start_date := none, subscription_end_date := some 5,
        stripe_customer_id := none, stripe_subscription_id := none } 7 = false :=
  C2_is_pro_spec.2 _ 7 5 rfl (by norm_num)

/-- C8: `get_plan_limits` returns the pro set
`{-1, -1, -1, 50MB, -1}` when `is_pro` holds and the free set
`{10, 10, 50, 10MB, 20}` otherwise; every free-plan user has
`documents_per_month = 10` and every pro/active non-expired user has it
unlimited. -/
theorem C8_plan_limits_values :
    (∀ (u : User) (now : Nat), is_pro u now = true →
      get_plan_limits u now =
        { documents_per_month := -1, summaries_per_month := -1,
          flashcards_per_month := -1, max_file_size_mb := 50,
          ai_generations_per_month := -1 }) ∧
    (∀ (u : User) (now : Nat), is_pro u now = false →
      get_plan_limits u now =
        { documents_per_month := 10, summaries_per_month := 10,
          flashcards_per_month := 50, max_file_size_mb := 10,
          ai_generations_per_month := 20 }) ∧
    (∀ (u : User) (now : Nat), u.plan_type = "free" →
      (get_plan_limits u now).documents_per_month = 10) ∧
    (∀ (u : User) (now : Nat),
      u.plan_type = "pro" → u.subscription_status = "active" →
      (u.subscription_end_date = none ∨
        ∃ e, u.subscription_end_date = some e ∧ now < e) →
      (get_plan_limits u now).documents_per_month = -1) := by
  refine ⟨?_, ?_, ?_, ?_⟩
  · intro u now h
    simp [get_plan_limits, h]
  · intro u now h
    simp [get_plan_limits, h]
  · intro u now h
    have hfalse : is_pro u now = false := by
      unfold is_pro
      simp [h]
    simp [get_plan_limits, hfalse]
  · intro u now hp hs he
    have htrue : is_pro u now = true := (is_pro_iff_conditions u now).mpr ⟨hp, hs, he⟩
    simp [get_plan_limits, htrue]

/-- C8 witness: a free user gets the free document cap 10, and a pro/active
user paid through time 100 gets the unlimited sentinel at time 50. -/
theorem C8_plan_limits_values_witness :
    (get_plan_limits
      { plan_type := "free", subscription_status := "active",
        subscription_start_date := none, subscription_end_date := none,
        stripe_customer_id := none, stripe_subscription_id := none } 0).documents_per_month
      = 10 ∧
    (get_plan_limits
      { plan_type := "pro", subscription_status := "active",
        subscription_start_date := some 0, subscription_end_date := some 100,
        stripe_customer_id := none, stripe_subscription_id := none } 50).documents_per_month
      = -1 :=
  ⟨C8_plan_limits_values.2.2.1 _ 0 rfl,
   C8_plan_limits_values.2.2.2 _ 50 rfl rfl (Or.inr ⟨100, rfl, by norm_num⟩)⟩

/-- Concrete entitled pro user for the C1 counterexample: active, paid
through time 100, matched by subscription ref "sub_1". -/
def c1User : User :=
  { plan_type := "pro", subscription_status := "active",
    subscription_start_date := some 0, subscription_end_date := some 100,
    stripe_customer_id := none, stripe_subscription_id := some "sub_1" }

/-- C1 counterexample: the payment-failed event does revoke current-period
access. The user is entitled (`is_pro` true) at time 50, well before the
end date 100; after the event the status is `past_due` and `is_pro` at the
same time 50 is false, because `is_pro` requires status `active`. -/
theorem C1_counterexample :
    is_pro c1User 50 = true ∧
    (50 : Nat) < 100 ∧
    stripe_webhook 50 (.paymentFailed (some "sub_1")) [(1, c1User)] =
      [(1, { c1User with subscription_status := "past_due" })] ∧
    is_pro { c1User with subscription_status := "past_due" } 50 = false := by
  decide

/-- C1 (amended): the payment-failed event sets `subscription_status` to
`past_due` on every user matched by `stripe_subscription_id` and leaves
`plan_type` and `subscription_end_date` unchanged, but it does revoke
current-period access: `is_pro` is false after the event at every time,
since `is_pro` requires status `active`. -/
theorem C1_payment_failed_amended :
    (∀ (now : Nat) (sid : String) (db : UserDB),
      stripe_webhook now (.paymentFailed (some sid)) db =
        db.map (fun p =>
          if p.2.stripe_subscription_id == some sid
          then (p.1, payment_failed_effect p.2) else p)) ∧
    (∀ u : User,
      (payment_failed_effect u).subscription_status = "past_due" ∧
      (payment_failed_effect u).plan_type = u.plan_type ∧
      (payment_failed_effect u).subscription_end_date = u.subscription_end_date ∧
      ∀ t : Nat, is_pro (payment_failed_effect u) t = false) := by
  refine ⟨fun now sid db => rfl, fun u => ⟨rfl, rfl, rfl, fun t => ?_⟩⟩
  simp [is_pro, payment_failed_effect]

/-- C5: the checkout-completed handler is idempotent: with a fixed `now`
and a fixed event payload, applying the event twice to any user table
yields the same table as applying it once. -/
theorem C5_checkout_idempotent :
    ∀ (now : Nat) (user_id : Option Nat) (sid : String) (pe : Option Nat)
      (db : UserDB),
      stripe_webhook now (.checkoutCompleted user_id sid pe)
        (stripe_webhook now (.checkoutCompleted user_id sid pe) db) =
      stripe_webhook now (.checkoutCompleted user_id sid pe) db := by
  intro now user_id sid pe db
  cases user_id with
  | none => rfl
  | some uid =>
    show (db.map _).map _ = db.map _
    apply map_idem
    intro p
    by_cases h : p.1 = uid
    · simp [h, checkout_effect_idem]
    · simp [h]

/-- Concrete user for the C6 counterexample: a free user with a stored end
date 999. -/
def c6User : User :=
  { plan_type := "free", subscription_status := "active",
    subscription_start_date := none, subscription_end_date := some 999,
    stripe_customer_id := none, stripe_subscription_id := none }

/-- C6 counterexample: a checkout-completed webhook event without a
period-end, processed at time 100 for user 1, leaves the stored end date
999 unchanged instead of setting it to `now + 30 days`. -/
theorem C6_counterexample :
    (stripe_webhook 100 (.checkoutCompleted (some 1) "sub_2" none)
        [(1, c6User)]).map (fun p => p.2.subscription_end_date) = [some 999] ∧
    (some 999 : Option Nat) ≠ some (100 + thirtyDays) := by
  decide

/-- C6 (amended): the checkout-completed webhook handler sets
`plan_type = pro`, `status = active`, stores the subscription ref and sets
the start to `now`; it sets the end date to the event's period-end when
that is present (truthy), and leaves the end date unchanged when it is
absent — the `now + 30 days` fallback exists only in the `verify_payment`
endpoint, not in the webhook handler. -/
theorem C6_checkout_amended :
    (∀ (now uid : Nat) (sid : String) (pe : Option Nat) (db : UserDB),
      stripe_webhook now (.checkoutCompleted (some uid) sid pe) db =
        db.map (fun p =>
          if p.1 == uid then (p.1, checkout_effect now sid pe p.2) else p)) ∧
    (∀ (now : Nat) (sid : String) (pe : Option Nat) (u : User),
      (checkout_effect now sid pe u).plan_type = "pro" ∧
      (checkout_effect now sid pe u).subscription_status = "active" ∧
      (checkout_effect now sid pe u).stripe_subscription_id = some sid ∧
      (checkout_effect now sid pe u).subscription_start_date = some now) ∧
    (∀ (now t : Nat) (sid : String) (u : User), t ≠ 0 →
      (checkout_effect now sid (some t) u).subscription_end_date = some t) ∧
    (∀ (now : Nat) (sid : String) (u : User),
      (checkout_effect now sid none u).subscription_end_date =
        u.subscription_end_date) ∧
    (∀ (now : Nat) (sid : String) (u : User),
      (verify_payment_upgrade now sid none u).subscription_end_date =
        some (now + thirtyDays)) := by
  refine ⟨fun now uid sid pe db => rfl,
         fun now sid pe u => ⟨rfl, rfl, rfl, rfl⟩, ?_,
         fun now sid u => rfl, fun now sid u => rfl⟩
  intro now t sid u ht
  simp [checkout_effect, truthy_period_end, ht]

/-- C6 witness: with period-end 777 present, the end date is written; the
other conjuncts instantiated at concrete values. -/
theorem C6_checkout_amended_witness :
    (checkout_effect 100 "sub_2" (some 777) c6User).subscription_end_date = some 777 ∧
    (checkout_effect 100 "sub_2" (some 777) c6User).plan_type = "pro" :=
  ⟨C6_checkout_amended.2.2.1 100 777 "sub_2" c6User (by norm_num),
   (C6_checkout_amended.2.1 100 "sub_2" (some 777) c6User).1⟩

/-- C9: a billing event whose user id or subscription ref matches no
stored user is processed as a no-op: the handler total-functionally
returns, and every user's state is unchanged. -/
theorem C9_unmatched_noop :
    ∀ (now : Nat) (db : UserDB),
      (∀ (sid : String) (pe : Option Nat),
        stripe_webhook now (.checkoutCompleted none sid pe) db = db) ∧
      (∀ (uid : Nat) (sid : String) (pe : Option Nat),
        (∀ p ∈ db, p.1 ≠ uid) →
        stripe_webhook now (.checkoutCompleted (some uid) sid pe) db = db) ∧
      (∀ sid : String,
        (∀ p ∈ db, p.2.stripe_subscription_id ≠ some sid) →
        stripe_webhook now (.subscriptionDeleted sid) db = db) ∧
      (stripe_webhook now (.paymentFailed none) db = db) ∧
      (∀ sid : String,
        (∀ p ∈ db, p.2.stripe_subscription_id ≠ some sid) →
        stripe_webhook now (.paymentFailed (some sid)) db = db) := by
  intro now db
  refine ⟨fun sid pe => rfl, ?_, ?_, rfl, ?_⟩
  · intro uid sid pe h
    exact map_no_match db (fun p => p.1 == uid)
      (fun p => (p.1, checkout_effect now sid pe p.2))
      (fun p hp => by simp [h p hp])
  · intro sid h
    exact map_no_match db (fun p => p.2.stripe_subscription_id == some sid)
      (fun p => (p.1, subscription_deleted_effect p.2))
      (fun p hp => by simp [h p hp])
  · intro sid h
    exact map_no_match db (fun p => p.2.stripe_subscription_id == some sid)
      (fun p => (p.1, payment_failed_effect p.2))
      (fun p hp => by simp [h p hp])

/-- C9 witness: a one-user table with subscription ref "sub_A" is left
unchanged by events referencing user 2 or ref "sub_B". -/
theorem C9_unmatched_noop_witness :
    stripe_webhook 0 (.checkoutCompleted (some 2) "sub_B" none) [(1, c1User)] =
      [(1, c1User)] ∧
    stripe_webhook 0 (.subscriptionDeleted "sub_B") [(1, c1User)] = [(1, c1User)] ∧
    stripe_webhook 0 (.paymentFailed (some "sub_B")) [(1, c1User)] = [(1, c1User)] :=
  ⟨(C9_unmatched_noop 0 [(1, c1User)]).2.1 2 "sub_B" none (by decide),
   (C9_unmatched_noop 0 [(1, c1User)]).2.2.1 "sub_B" (by decide),
   (C9_unmatched_noop 0 [(1, c1User)]).2.2.2.2 "sub_B" (by decide)⟩

/-- C3: every monthly quota check returns `(true, none)` (the source's
`(True, None)`, i.e. unlimited) when the limit is the `-1` sentinel;
otherwise, with `used` the count of the user's records this month and
`remaining = limit - used`, it returns `(true, remaining)` when
`remaining > 0` and `(false, 0)` otherwise — so with limit 10 and 10 used
it returns `(false, 0)`, and with 9 used it returns `(true, 1)`. -/
theorem C3_quota_check :
    (∀ (db : DB) (uid : Nat) (u : User) (now som : Nat),
      (get_plan_limits u now).documents_per_month = -1 →
        check_document_limit db uid u now som = (true, none)) ∧
    (∀ (db : DB) (uid : Nat) (u : User) (now som : Nat),
      (get_plan_limits u now).documents_per_month ≠ -1 →
      0 < (get_plan_limits u now).documents_per_month - (documents_this_month db uid som : Int) →
        check_document_limit db uid u now som =
          (true, some ((get_plan_limits u now).documents_per_month -
            (documents_this_month db uid som : Int)))) ∧
    (∀ (db : DB) (uid : Nat) (u : User) (now som : Nat),
      (get_plan_limits u now).documents_per_month ≠ -1 →
      (get_plan_limits u now).documents_per_month - (documents_this_month db uid som : Int) ≤ 0 →
        check_document_limit db uid u now som = (false, some 0)) ∧
    (∀ (db : DB) (uid : Nat) (u : User) (now som : Nat),
      (get_plan_limits u now).summaries_per_month = -1 →
        check_summary_limit db uid u now som = (true, none)) ∧
    (∀ (db : DB) (uid : Nat) (u : User) (now som : Nat),
      (get_plan_limits u now).summaries_per_month ≠ -1 →
      0 < (get_plan_limits u now).summaries_per_month - (summaries_this_month db uid som : Int) →
        check_summary_limit db uid u now som =
          (true, some ((get_plan_limits u now).summaries_per_month -
            (summaries_this_month db uid som : Int)))) ∧
    (∀ (db : DB) (uid : Nat) (u : User) (now som : Nat),
      (get_plan_limits u now).summaries_per_month ≠ -1 →
      (get_plan_limits u now).summaries_per_month - (summaries_this_month db uid som : Int) ≤ 0 →
        check_summary_limit db uid u now som = (false, some 0)) ∧
    (∀ (db : DB) (uid : Nat) (u : User) (now som : Nat),
      (get_plan_limits u now).flashcards_per_month = -1 →
        check_flashcard_limit db uid u now som = (true, none)) ∧
    (∀ (db : DB) (uid : Nat) (u : User) (now som : Nat),
      (get_plan_limits u now).flashcards_per_month ≠ -1 →
      0 < (get_plan_limits u now).flashcards_per_month - (flashcards_this_month db uid som : Int) →
        check_flashcard_limit db uid u now som =
          (true, some ((get_plan_limits u now).flashcards_per_month -
            (flashcards_this_month db uid som : Int)))) ∧
    (∀ (db : DB) (uid : Nat) (u : User) (now som : Nat),
      (get_plan_limits u now).flashcards_per_month ≠ -1 →
      (get_plan_limits u now).flashcards_per_month - (flashcards_this_month db uid som : Int) ≤ 0 →
        check_flashcard_limit db uid u now som = (false, some 0)) ∧
    (∀ (db : DB) (uid : Nat) (u : User) (now som : Nat),
      (get_plan_limits u now).documents_per_month = 10 →
      documents_this_month db uid som = 10 →
        check_document_limit db uid u now som = (false, some 0)) ∧
    (∀ (db : DB) (uid : Nat) (u : User) (now som : Nat),
      (get_plan_limits u now).documents_per_month = 10 →
      documents_this_month db uid som = 9 →
        check_document_limit db uid u now som = (true, some 1)) := by
  refine ⟨?_, ?_, ?_, ?_, ?_, ?_, ?_, ?_, ?_, ?_, ?_⟩ <;>
    intro db uid u now som h
  · simp [check_document_limit, h]
  · intro h2
    simp only [check_document_limit, beq_iff_eq, if_neg h]
    rw [if_pos h2]
  · intro h2
    simp only [check_document_limit, beq_iff_eq, if_neg h]
    rw [if_neg (by omega)]
  · simp [check_summary_limit, h]
  · intro h2
    simp only [check_summary_limit, beq_iff_eq, if_neg h]
    rw [if_pos h2]
  · intro h2
    simp only [check_summary_limit, beq_iff_eq, if_neg h]
    rw [if_neg (by omega)]
  · simp [check_flashcard_limit, h]
  · intro h2
    simp only [check_flashcard_limit, beq_iff_eq, if_neg h]
    rw [if_pos h2]
  · intro h2
    simp only [check_flashcard_limit, beq_iff_eq, if_neg h]
    rw [if_neg (by omega)]
  · intro h2
    simp only [check_document_limit, beq_iff_eq, h, h2]
    norm_num
  · intro h2
    simp only [check_document_limit, beq_iff_eq, h, h2]
    norm_num

/-- Free user shared by the quota witnesses. -/
def freeUser : User :=
  { plan_type := "free", subscription_status := "active",
    subscription_start_date := none, subscription_end_date := none,
    stripe_customer_id := none, stripe_subscription_id := none }

/-- Entitled pro user (no end date) shared by the quota witnesses. -/
def proUser : User :=
  { plan_type := "pro", subscription_status := "active",
    subscription_start_date := some 0, subscription_end_date := none,
    stripe_customer_id := none, stripe_subscription_id := some "sub_3" }

/-- A database in which user 1 uploaded ten documents this month. -/
def dbTenDocs : DB :=
  { documents := (List.range 10).map (fun i => { user := 1, uploaded_at := i })
    summaries := []
    flashcards := [] }

/-- A database in which user 1 uploaded nine documents this month. -/
def dbNineDocs : DB :=
  { documents := (List.range 9).map (fun i => { user := 1, uploaded_at := i })
    summaries := []
    flashcards := [] }

/-- C3 witness: the free user at the 10-of-10 boundary is denied with 0
remaining, at 9-of-10 is allowed with 1 remaining, and the pro user gets
the unconditional `(true, none)`. -/
theorem C3_quota_check_witness :
    check_document_limit dbTenDocs 1 freeUser 0 0 = (false, some 0) ∧
    check_document_limit dbNineDocs 1 freeUser 0 0 = (true, some 1) ∧
    check_document_limit dbTenDocs 1 proUser 0 0 = (true, none) :=
  ⟨C3_quota_check.2.2.2.2.2.2.2.2.2.1 dbTenDocs 1 freeUser 0 0 (by decide) (by decide),
   C3_quota_check.2.2.2.2.2.2.2.2.2.2 dbNineDocs 1 freeUser 0 0 (by decide) (by decide),
   C3_quota_check.1 dbTenDocs 1 proUser 0 0 (by decide)⟩

/-- C4: the AI-generation usage is the number of the user's summaries this
month plus the number of this month's flashcards whose document reference
is non-null; `check_ai_generation_limit` meters exactly that total; a
flashcard with a null document never contributes, and one with a non-null
document (owned by the user, created in the window) always does. -/
theorem C4_ai_generation_count :
    (∀ (db : DB) (uid som : Nat),
      ai_generations_used db uid som =
        summaries_this_month db uid som + ai_flashcards_this_month db uid som) ∧
    (∀ (db : DB) (uid : Nat) (u : User) (now som : Nat),
      (get_plan_limits u now).ai_generations_per_month ≠ -1 →
        check_ai_generation_limit db uid u now som =
          (if 0 < (get_plan_limits u now).ai_generations_per_month -
              (ai_generations_used db uid som : Int)
           then (true, some ((get_plan_limits u now).ai_generations_per_month -
              (ai_generations_used db uid som : Int)))
           else (false, some 0))) ∧
    (∀ (db : DB) (uid som : Nat) (f : Flashcard), f.document = none →
      ai_generations_used { db with flashcards := f :: db.flashcards } uid som =
        ai_generations_used db uid som) ∧
    (∀ (db : DB) (uid som : Nat) (f : Flashcard),
      f.document ≠ none → f.user = uid → som ≤ f.created_at →
      ai_generations_used { db with flashcards := f :: db.flashcards } uid som =
        ai_generations_used db uid som + 1) := by
  refine ⟨fun db uid som => rfl, ?_, ?_, ?_⟩
  · intro db uid u now som h
    simp only [check_ai_generation_limit, beq_iff_eq, if_neg h,
      ai_generations_used, Nat.cast_add]
  · intro db uid som f hdoc
    simp [ai_generations_used, summaries_this_month, ai_flashcards_this_month, hdoc]
  · intro db uid som f hdoc huser ht
    have hsome : f.document.isSome = true := Option.isSome_iff_ne_none.mpr hdoc
    simp [ai_generations_used, summaries_this_month, ai_flashcards_this_month,
      hsome, huser, ht]
    omega

/-- Empty database for witnesses. -/
def dbEmpty : DB := { documents := [], summaries := [], flashcards := [] }

/-- C4 witness: on the empty database the free user has 20 generations
remaining; a standalone flashcard (null document) leaves the usage at 0
while an AI flashcard (document 7) raises it to 1. -/
theorem C4_ai_generation_count_witness :
    check_ai_generation_limit dbEmpty 1 freeUser 0 0 = (true, some 20) ∧
    ai_generations_used
      { dbEmpty with flashcards := [{ user := 1, document := none, created_at := 5 }] }
      1 0 = 0 ∧
    ai_generations_used
      { dbEmpty with flashcards := [{ user := 1, document := some 7, created_at := 5 }] }
      1 0 = 1 :=
  ⟨(C4_ai_generation_count.2.1 dbEmpty 1 freeUser 0 0 (by decide)).trans (by decide),
   C4_ai_generation_count.2.2.1 dbEmpty 1 0
     { user := 1, document := none, created_at := 5 } rfl,
   C4_ai_generation_count.2.2.2 dbEmpty 1 0
     { user := 1, document := some 7, created_at := 5 } (by decide) rfl (by decide)⟩

/-- Common shape of every `remaining` entry in the serializer snapshot. -/
theorem remaining_entry_spec (limit : Int) (used : Nat) :
    (limit ≠ -1 →
      (if limit != -1 then limit - (used : Int) else -1) = limit - (used : Int)) ∧
    (limit ≠ -1 → limit < (used : Int) →
      (if limit != -1 then limit - (used : Int) else -1) < 0) ∧
    (limit = -1 → (if limit != -1 then limit - (used : Int) else -1) = -1) := by
  refine ⟨fun h => by simp [h], fun h h2 => ?_, fun h => by simp [h]⟩
  rw [if_pos (bne_iff_ne.mpr h)]
  omega

/-- C10: in the serializer snapshot, every resource with a finite limit
reports `remaining = limit - used` with no clamping at zero — negative
whenever `used` exceeds the limit — and every unlimited resource reports
both `limit` and `remaining` as the sentinel `-1`, regardless of `used`. -/
theorem C10_snapshot_remaining :
    ∀ (db : DB) (uid : Nat) (u : User) (now som : Nat) (s : PlanLimitsSnapshot),
      serializer_plan_limits db uid u now som = s →
      ((s.documents.limit ≠ -1 →
          s.documents.remaining = s.documents.limit - (s.documents.used : Int)) ∧
       (s.documents.limit ≠ -1 → s.documents.limit < (s.documents.used : Int) →
          s.documents.remaining < 0) ∧
       (s.documents.limit = -1 → s.documents.remaining = -1)) ∧
      ((s.summaries.limit ≠ -1 →
          s.summaries.remaining = s.summaries.limit - (s.summaries.used : Int)) ∧
       (s.summaries.limit ≠ -1 → s.summaries.limit < (s.summaries.used : Int) →
          s.summaries.remaining < 0) ∧
       (s.summaries.limit = -1 → s.summaries.remaining = -1)) ∧
      ((s.flashcards.limit ≠ -1 →
          s.flashcards.remaining = s.flashcards.limit - (s.flashcards.used : Int)) ∧
       (s.flashcards.limit ≠ -1 → s.flashcards.limit < (s.flashcards.used : Int) →
          s.flashcards.remaining < 0) ∧
       (s.flashcards.limit = -1 → s.flashcards.remaining = -1)) ∧
      ((s.ai_generations.limit ≠ -1 →
          s.ai_generations.remaining =
            s.ai_generations.limit - (s.ai_generations.used : Int)) ∧
       (s.ai_generations.limit ≠ -1 →
          s.ai_generations.limit < (s.ai_generations.used : Int) →
          s.ai_generations.remaining < 0) ∧
       (s.ai_generations.limit = -1 → s.ai_generations.remaining = -1)) := by
  intro db uid u now som s hs
  subst hs
  exact ⟨remaining_entry_spec _ _, remaining_entry_spec _ _,
         remaining_entry_spec _ _, remaining_entry_spec _ _⟩

/-- A database in which user 1 uploaded twelve documents this month. -/
def dbTwelveDocs : DB :=
  { documents := (List.range 12).map (fun i => { user := 1, uploaded_at := i })
    summaries := []
    flashcards := [] }

/-- C10 witness: the free user with 12 documents used is reported a
negative remaining (`10 - 12 = -2 < 0`), and the pro user's unlimited
document resource reports `remaining = -1`. -/
theorem C10_snapshot_remaining_witness :
    (serializer_plan_limits dbTwelveDocs 1 freeUser 0 0).documents.remaining < 0 ∧
    (serializer_plan_limits dbTwelveDocs 1 proUser 0 0).documents.remaining = -1 :=
  ⟨((C10_snapshot_remaining dbTwelveDocs 1 freeUser 0 0 _ rfl).1.2.1
      (by decide) (by decide)),
   ((C10_snapshot_remaining dbTwelveDocs 1 proUser 0 0 _ rfl).1.2.2 (by decide))⟩

/-- C7 counterexample: the requested card count is not clamped to the
nearest bound: for the in-range-violating request 100 the source code
yields the default 10, while clamping to [1,50] would yield 50. -/
theorem C7_counterexample :
    parse_num_cards (.value 100) = 10 ∧
    clamp_num_cards (.value 100) = 50 ∧
    parse_num_cards (.value 100) ≠ clamp_num_cards (.value 100) := by
  decide

/-- C7 (amended): absent or unparseable input yields 10; an in-range count
passes through; an out-of-range count is replaced by the default 10 (not
clamped to the nearest bound), so the used count always lies in [1, 50];
and every card in the result is the field-default pass of a parsed card,
which replaces a missing question by "Question not generated" and a
missing category by "General". -/
theorem C7_flashcards_amended :
    parse_num_cards .absent = 10 ∧
    parse_num_cards .unparseable = 10 ∧
    (∀ n : Int, 1 ≤ n → n ≤ 50 → parse_num_cards (.value n) = n) ∧
    (∀ n : Int, n < 1 ∨ 50 < n → parse_num_cards (.value n) = 10) ∧
    (∀ i : NumCardsInput, 1 ≤ parse_num_cards i ∧ parse_num_cards i ≤ 50) ∧
    (∀ c : RawCard, c.question = none →
      (ensure_card c).question = "Question not generated") ∧
    (∀ c : RawCard, c.category = none → (ensure_card c).category = "General") ∧
    (∀ (raw : List RawCard) (n : Nat) (c : Card),
      c ∈ finalize_flashcards raw n → ∃ rc ∈ raw, c = ensure_card rc) := by
  refine ⟨rfl, rfl, ?_, ?_, ?_, ?_, ?_, ?_⟩
  · intro n h1 h2
    simp only [parse_num_cards, Bool.or_eq_true, decide_eq_true_eq]
    rw [if_neg (by omega)]
  · intro n h
    simp only [parse_num_cards, Bool.or_eq_true, decide_eq_true_eq]
    rw [if_pos (by omega)]
  · intro i
    cases i with
    | absent => exact ⟨by decide, by decide⟩
    | unparseable => exact ⟨by decide, by decide⟩
    | value n =>
      simp only [parse_num_cards, Bool.or_eq_true, decide_eq_true_eq]
      split <;> constructor <;> omega
  · intro c h
    simp [ensure_card, h]
  · intro c h
    simp [ensure_card, h]
  · intro raw n c hc
    have hc2 : c ∈ raw.map ensure_card :=
      List.mem_of_mem_take hc
    rcases List.mem_map.mp hc2 with ⟨rc, hrc, hrceq⟩
    exact ⟨rc, hrc, hrceq.symm⟩

/-- C7 witness: in-range 25 passes through, 0 and 100 fall back to 10, a
card missing its question and category receives both placeholders, and the
single output card of a one-card generation is that defaulted card. -/
theorem C7_flashcards_amended_witness :
    parse_num_cards (.value 25) = 25 ∧
    parse_num_cards (.value 0) = 10 ∧
    parse_num_cards (.value 100) = 10 ∧
    (ensure_card { question := none, answer := some "a", category := none }).question
      = "Question not generated" ∧
    (ensure_card { question := none, answer := some "a", category := none }).category
      = "General" ∧
    ∃ rc ∈ [({ question := none, answer := some "a", category := none } : RawCard)],
      ensure_card { question := none, answer := some "a", category := none }
        = ensure_card rc :=
  ⟨C7_flashcards_amended.2.2.1 25 (by norm_num) (by norm_num),
   C7_flashcards_amended.2.2.2.1 0 (Or.inl (by norm_num)),
   C7_flashcards_amended.2.2.2.1 100 (Or.inr (by norm_num)),
   C7_flashcards_amended.2.2.2.2.2.1 _ rfl,
   C7_flashcards_amended.2.2.2.2.2.2.1 _ rfl,
   C7_flashcards_amended.2.2.2.2.2.2.2
     [{ question := none, answer := some "a", category := none }] 1
     (ensure_card { question := none, answer := some "a", category := none })
     (by simp [finalize_flashcards])⟩

end StudyAI
